import Mathlib

/-!
Verification development for the atest-ext-ai repository.

The Python sources are shallowly embedded as Lean functions over `List Char`
(a faithful ASCII model of Python strings).  Each regular-expression rewrite
of the sources is embedded as a fueled left-to-right scanner with the exact
matching semantics of the pattern it models (word boundaries, greedy runs,
case-insensitive keywords, continuation after the match end).  Fallible
Python code is modelled with `Except String`, the exception message being
the `str(e)` text Python would produce.
-/

/-- Python whitespace for `str.strip` and the regex class `\s` (ASCII part). -/
def isPySpace (c : Char) : Bool :=
  c = ' ' || c = '\t' || c = '\n' || c = '\r' || c = '\x0b' || c = '\x0c'

/-- The regex word class `\w` (ASCII part): letters, digits and underscore. -/
def isWordChar (c : Char) : Bool :=
  c.isAlphanum || c = '_'

/-- Last element of a character list, if any. -/
def lastChar : List Char → Option Char
  | [] => none
  | [c] => some c
  | _ :: c :: rest => lastChar (c :: rest)

/-- Python `str.rstrip()` on the character-list model. -/
def rstripL (l : List Char) : List Char :=
  (l.reverse.dropWhile isPySpace).reverse

/-- Python `str.strip()` on the character-list model. -/
def stripL (l : List Char) : List Char :=
  rstripL (l.dropWhile isPySpace)

/-- One pass of `re.sub(r"\s+", " ", ...)`: every maximal whitespace run
becomes a single space.  The boolean flag records whether the previous
character belonged to a run already rewritten. -/
def collapseGo : Bool → List Char → List Char
  | _, [] => []
  | inWs, c :: rest =>
    if isPySpace c then
      if inWs then collapseGo true rest else ' ' :: collapseGo true rest
    else c :: collapseGo false rest

/-- Case-sensitive "the pattern is a leading piece of the input". -/
def startsWithStr : List Char → List Char → Bool
  | [], _ => true
  | _ :: _, [] => false
  | p :: ps, c :: cs => (p == c) && startsWithStr ps cs

/-- Case-insensitive variant (ASCII folding), for `re.IGNORECASE` patterns. -/
def startsWithCI : List Char → List Char → Bool
  | [], _ => true
  | _ :: _, [] => false
  | p :: ps, c :: cs => (p.toLower == c.toLower) && startsWithCI ps cs

/-- Substring test on character lists. -/
def containsSub : List Char → List Char → Bool
  | pat, [] => startsWithStr pat []
  | pat, c :: rest => startsWithStr pat (c :: rest) || containsSub pat rest

/-- Substring test on strings. -/
def strContains (s pat : String) : Bool :=
  containsSub pat.data s.data

/-- A `\b` boundary holds before the scan position: the previous character
(absent at the start of the text) is not a word character. -/
def boundaryOK : Option Char → Bool
  | none => true
  | some p => !isWordChar p

/-- A `\b` boundary holds after a word-character run: the next character is
absent or not a word character. -/
def nextNonWord : List Char → Bool
  | [] => true
  | c :: _ => !isWordChar c

/-- Python `str.lower()` (ASCII model). -/
def asciiLower (s : String) : String :=
  String.mk (s.data.map Char.toLower)

/-- Python `str.upper()` (ASCII model). -/
def asciiUpper (s : String) : String :=
  String.mk (s.data.map Char.toUpper)

/-!  The dialect rule engine, from `src/db/dialect_manager.py`. -/

/-- `re.sub(r'D([^D]+)D', r'A\1B', sql)` for a delimiter character `D` and
single-character replacements `A`, `B` — the identifier-quoting rewrites of
the dialect manager (double quotes to backticks, backticks to double quotes
or square brackets).  Fueled; called with the list length as fuel, which one
step per consumed character never exhausts. -/
def pairRewrite (d a b : Char) : Nat → List Char → List Char
  | 0, l => l
  | _ + 1, [] => []
  | n + 1, c :: rest =>
    if c == d then
      let mid := rest.takeWhile (fun x => !(x == d))
      match rest.dropWhile (fun x => !(x == d)) with
      | [] => c :: pairRewrite d a b n rest
      | _ :: rest3 =>
        if mid.isEmpty then c :: pairRewrite d a b n rest
        else a :: (mid ++ b :: pairRewrite d a b n rest3)
    else c :: pairRewrite d a b n rest

/-- `re.sub(r'\bW\b', repl, sql, flags=re.IGNORECASE)` for a keyword `W`:
the boolean-literal rewrites of the MySQL rules. -/
def wordSubGo (w r : List Char) : Nat → Option Char → List Char → List Char
  | 0, _, l => l
  | _ + 1, _, [] => []
  | n + 1, prev, c :: rest =>
    if boundaryOK prev && startsWithCI w (c :: rest)
        && nextNonWord ((c :: rest).drop w.length) then
      r ++ wordSubGo w r n (lastChar ((c :: rest).take w.length))
            ((c :: rest).drop w.length)
    else c :: wordSubGo w r n (some c) rest

/-- Top-level entry of `wordSubGo` with full fuel and no previous character. -/
def wordSub (w r l : List Char) : List Char :=
  wordSubGo w r l.length none l

/-- Attempt to match `LIMIT\s+(\d+)\b` (case-insensitive) at the head of
`l`; the caller has already checked the `\b` before `LIMIT`.  Returns the
captured digits and the rest of the input after the match. -/
def matchLimitAt (l : List Char) : Option (List Char × List Char) :=
  if startsWithCI ("limit".data) l then
    let r1 := l.drop 5
    let ws := r1.takeWhile isPySpace
    let r2 := r1.dropWhile isPySpace
    let ds := r2.takeWhile Char.isDigit
    let r3 := r2.dropWhile Char.isDigit
    if !ws.isEmpty && !ds.isEmpty && nextNonWord r3 then some (ds, r3) else none
  else none

/-- `re.search(r'\bLIMIT\s+(\d+)\b', sql, flags=re.IGNORECASE)`: the digits
of the first match, scanning left to right. -/
def searchLimitGo : Nat → Option Char → List Char → Option (List Char)
  | 0, _, _ => none
  | _ + 1, _, [] => none
  | n + 1, prev, c :: rest =>
    if boundaryOK prev then
      match matchLimitAt (c :: rest) with
      | some (ds, _) => some ds
      | none => searchLimitGo n (some c) rest
    else searchLimitGo n (some c) rest

/-- Top-level entry of `searchLimitGo`. -/
def searchLimit (l : List Char) : Option (List Char) :=
  searchLimitGo l.length none l

/-- `re.sub(r'\bLIMIT\s+\d+\b', '', sql, flags=re.IGNORECASE)`: removes
every non-overlapping match, continuing after each match end. -/
def subLimitAllGo : Nat → Option Char → List Char → List Char
  | 0, _, l => l
  | _ + 1, _, [] => []
  | n + 1, prev, c :: rest =>
    if boundaryOK prev then
      match matchLimitAt (c :: rest) with
      | some (ds, r3) => subLimitAllGo n (lastChar ds) r3
      | none => c :: subLimitAllGo n (some c) rest
    else c :: subLimitAllGo n (some c) rest

/-- Top-level entry of `subLimitAllGo`. -/
def subLimitAll (l : List Char) : List Char :=
  subLimitAllGo l.length none l

/-- `re.sub(r'\bSELECT\b', repl, sql, flags=re.IGNORECASE, count=1)`:
replace only the first `SELECT` keyword, the rest is copied unchanged. -/
def subSelectFirstGo (r : List Char) : Nat → Option Char → List Char → List Char
  | 0, _, l => l
  | _ + 1, _, [] => []
  | n + 1, prev, c :: rest =>
    if boundaryOK prev && startsWithCI ("select".data) (c :: rest)
        && nextNonWord ((c :: rest).drop 6) then
      r ++ (c :: rest).drop 6
    else c :: subSelectFirstGo r n (some c) rest

/-- Top-level entry of `subSelectFirstGo`. -/
def subSelectFirst (r l : List Char) : List Char :=
  subSelectFirstGo r l.length none l

/-- Consume a case-insensitive literal word, for the sequence matchers. -/
def eatCI (w l : List Char) : Option (List Char) :=
  if startsWithCI w l then some (l.drop w.length) else none

/-- Consume `\s+` (at least one whitespace character, greedy). -/
def eatWs (l : List Char) : Option (List Char) :=
  if (l.takeWhile isPySpace).isEmpty then none else some (l.dropWhile isPySpace)

/-- Consume `(\d+)` (at least one digit, greedy), returning the digits. -/
def eatDigits (l : List Char) : Option (List Char × List Char) :=
  let d := l.takeWhile Char.isDigit
  if d.isEmpty then none else some (d, l.dropWhile Char.isDigit)

/-- Attempt to match `OFFSET\s+(\d+)\s+ROWS\s+FETCH\s+NEXT\s+(\d+)\s+ROWS\s+ONLY\b`
at the head of `l` (case-insensitive); `\b` before `OFFSET` is the caller's.
Returns the two digit captures and the rest after the match. -/
def matchOffsetFetchAt (l : List Char) : Option (List Char × List Char × List Char) := do
  let r ← eatCI ("offset".data) l
  let r ← eatWs r
  let (n1, r) ← eatDigits r
  let r ← eatWs r
  let r ← eatCI ("rows".data) r
  let r ← eatWs r
  let r ← eatCI ("fetch".data) r
  let r ← eatWs r
  let r ← eatCI ("next".data) r
  let r ← eatWs r
  let (n2, r) ← eatDigits r
  let r ← eatWs r
  let r ← eatCI ("rows".data) r
  let r ← eatWs r
  let r ← eatCI ("only".data) r
  if nextNonWord r then some (n1, n2, r) else none

/-- The MySQL limit rewrite: every `OFFSET n ROWS FETCH NEXT m ROWS ONLY`
becomes `LIMIT m OFFSET n`. -/
def subOffsetFetchGo : Nat → Option Char → List Char → List Char
  | 0, _, l => l
  | _ + 1, _, [] => []
  | n + 1, prev, c :: rest =>
    if boundaryOK prev then
      match matchOffsetFetchAt (c :: rest) with
      | some (d1, d2, r) =>
        ("LIMIT ".data ++ d2 ++ " OFFSET ".data ++ d1)
          ++ subOffsetFetchGo n
              (lastChar ((c :: rest).take ((c :: rest).length - r.length))) r
      | none => c :: subOffsetFetchGo n (some c) rest
    else c :: subOffsetFetchGo n (some c) rest

/-- Top-level entry of `subOffsetFetchGo`. -/
def subOffsetFetch (l : List Char) : List Char :=
  subOffsetFetchGo l.length none l

/-- Attempt to match `LIMIT\s+(\d+)\s+OFFSET\s+(\d+)\b` at the head of `l`
(case-insensitive); `\b` before `LIMIT` is the caller's. -/
def matchLimitOffsetAt (l : List Char) : Option (List Char × List Char × List Char) := do
  let r ← eatCI ("limit".data) l
  let r ← eatWs r
  let (m1, r) ← eatDigits r
  let r ← eatWs r
  let r ← eatCI ("offset".data) r
  let r ← eatWs r
  let (n1, r) ← eatDigits r
  if nextNonWord r then some (m1, n1, r) else none

/-- The PostgreSQL limit rewrite: every `LIMIT m OFFSET n` becomes
`OFFSET n ROWS FETCH NEXT m ROWS ONLY`. -/
def subLimitOffsetGo : Nat → Option Char → List Char → List Char
  | 0, _, l => l
  | _ + 1, _, [] => []
  | n + 1, prev, c :: rest =>
    if boundaryOK prev then
      match matchLimitOffsetAt (c :: rest) with
      | some (m1, n1, r) =>
        ("OFFSET ".data ++ n1 ++ " ROWS FETCH NEXT ".data ++ m1 ++ " ROWS ONLY".data)
          ++ subLimitOffsetGo n
              (lastChar ((c :: rest).take ((c :: rest).length - r.length))) r
      | none => c :: subLimitOffsetGo n (some c) rest
    else c :: subLimitOffsetGo n (some c) rest

/-- Top-level entry of `subLimitOffsetGo`. -/
def subLimitOffset (l : List Char) : List Char :=
  subLimitOffsetGo l.length none l

/-- The lookahead `(?=\s*(=|!=|<>)\s*\w)` of the PostgreSQL boolean
heuristic, applied to the text after the matched digit. -/
def cmpLookahead (l : List Char) : Bool :=
  let r := l.dropWhile isPySpace
  let after : Option (List Char) :=
    if startsWithStr ("=".data) r then some (r.drop 1)
    else if startsWithStr ("!=".data) r then some (r.drop 2)
    else if startsWithStr ("<>".data) r then some (r.drop 2)
    else none
  match after with
  | none => false
  | some r2 =>
    match r2.dropWhile isPySpace with
    | [] => false
    | c :: _ => isWordChar c

/-- `re.sub(r'\bD\b(?=\s*(=|!=|<>)\s*\w)', repl, sql)` for a digit `D`:
the PostgreSQL boolean-literal heuristic.  The lookahead text is not
consumed; scanning continues right after the digit. -/
def boolSubGo (d : Char) (r : List Char) : Nat → Option Char → List Char → List Char
  | 0, _, l => l
  | _ + 1, _, [] => []
  | n + 1, prev, c :: rest =>
    if boundaryOK prev && (c == d) && nextNonWord rest && cmpLookahead rest then
      r ++ boolSubGo d r n (some c) rest
    else c :: boolSubGo d r n (some c) rest

/-- Top-level entry of `boolSubGo`. -/
def boolSub (d : Char) (r l : List Char) : List Char :=
  boolSubGo d r l.length none l

/-- `DialectManager._mysql_adjustments`. -/
def mysql_adjustments (sql : List Char) : List Char :=
  let s1 := pairRewrite '"' '`' '`' sql.length sql
  let s2 := subOffsetFetch s1
  let s3 := wordSub ("TRUE".data) ("1".data) s2
  wordSub ("FALSE".data) ("0".data) s3

/-- `DialectManager._postgresql_adjustments`. -/
def postgresql_adjustments (sql : List Char) : List Char :=
  let s1 := pairRewrite '`' '"' '"' sql.length sql
  let s2 := subLimitOffset s1
  let s3 := boolSub '1' ("TRUE".data) s2
  boolSub '0' ("FALSE".data) s3

/-- `DialectManager._sqlite_adjustments`: returns the SQL unchanged. -/
def sqlite_adjustments (sql : List Char) : List Char :=
  sql

/-- `DialectManager._mssql_adjustments`. -/
def mssql_adjustments (sql : List Char) : List Char :=
  let s1 := pairRewrite '`' '[' ']' sql.length sql
  match searchLimit s1 with
  | some ds => subSelectFirst (("SELECT TOP ".data) ++ ds) (subLimitAll s1)
  | none => s1

/-- `DialectManager._oracle_adjustments`. -/
def oracle_adjustments (sql : List Char) : List Char :=
  let s1 := pairRewrite '`' '"' '"' sql.length sql
  match searchLimit s1 with
  | some ds =>
    ("SELECT * FROM (".data) ++ subLimitAll s1 ++ (") WHERE ROWNUM <= ".data) ++ ds
  | none => s1

/-- The `DatabaseType` enumeration. -/
inductive DatabaseType
  | mysql
  | postgresql
  | sqlite
  | mssql
  | oracle
deriving DecidableEq

/-- `DatabaseType(value)`: exact match of the already-lowered string against
the enumeration values; `ValueError` is modelled as `none`. -/
def parseDatabaseType (s : String) : Option DatabaseType :=
  if s = "mysql" then some DatabaseType.mysql
  else if s = "postgresql" then some DatabaseType.postgresql
  else if s = "sqlite" then some DatabaseType.sqlite
  else if s = "mssql" then some DatabaseType.mssql
  else if s = "oracle" then some DatabaseType.oracle
  else none

/-- `DialectManager.adjust_sql_for_dialect`: lower the database type, look
it up in the rule table, apply the rules; an unknown type returns the
original SQL. -/
def adjust_sql_for_dialect (sql database_type : String) : String :=
  match parseDatabaseType (asciiLower database_type) with
  | some DatabaseType.mysql => String.mk (mysql_adjustments sql.data)
  | some DatabaseType.postgresql => String.mk (postgresql_adjustments sql.data)
  | some DatabaseType.sqlite => String.mk (sqlite_adjustments sql.data)
  | some DatabaseType.mssql => String.mk (mssql_adjustments sql.data)
  | some DatabaseType.oracle => String.mk (oracle_adjustments sql.data)
  | none => sql

/-!  Helper functions, from `src/utils/helpers.py`. -/

/-- `re.sub(r'^```sql\s*', '', sql, flags=re.IGNORECASE | re.MULTILINE)`:
at the start of the text or right after a newline, remove a ```sql fence
opener together with the following whitespace run.  The boolean tracks
whether the scan position is a MULTILINE `^` position. -/
def fenceSqlGo : Nat → Bool → List Char → List Char
  | 0, _, l => l
  | _ + 1, _, [] => []
  | n + 1, atStart, c :: rest =>
    if atStart && startsWithCI ("```sql".data) (c :: rest) then
      let r1 := (c :: rest).drop 6
      let ws := r1.takeWhile isPySpace
      fenceSqlGo n (lastChar ws == some '\n') (r1.dropWhile isPySpace)
    else c :: fenceSqlGo n (c == '\n') rest

/-- `re.sub(r'^```\s*', '', sql, flags=re.MULTILINE)`: like `fenceSqlGo`
for a bare ``` fence opener. -/
def fenceGo : Nat → Bool → List Char → List Char
  | 0, _, l => l
  | _ + 1, _, [] => []
  | n + 1, atStart, c :: rest =>
    if atStart && startsWithStr ("```".data) (c :: rest) then
      let r1 := (c :: rest).drop 3
      let ws := r1.takeWhile isPySpace
      fenceGo n (lastChar ws == some '\n') (r1.dropWhile isPySpace)
    else c :: fenceGo n (c == '\n') rest

/-- `re.sub(r'```$', '', sql, flags=re.MULTILINE)`: remove ``` when it
stands right before a newline or at the end of the text. -/
def fenceEndGo : Nat → List Char → List Char
  | 0, l => l
  | _ + 1, [] => []
  | n + 1, c :: rest =>
    if startsWithStr ("```".data) (c :: rest)
        && (match (c :: rest).drop 3 with
            | [] => true
            | nc :: _ => nc == '\n') then
      fenceEndGo n ((c :: rest).drop 3)
    else c :: fenceEndGo n rest

/-- Whether the text ends with a semicolon (`str.endswith(';')`). -/
def endsSemi : List Char → Bool
  | [] => false
  | [c] => c == ';'
  | _ :: c :: rest => endsSemi (c :: rest)

/-- `clean_sql_query` on the character-list model: empty input returns
empty; otherwise remove markdown fences, strip and normalize whitespace,
and append a terminating semicolon when the nonempty result lacks one. -/
def cleanList (l : List Char) : List Char :=
  if l.isEmpty then [] else
  let s1 := fenceSqlGo l.length true l
  let s2 := fenceGo s1.length true s1
  let s3 := fenceEndGo s2.length s2
  let t := collapseGo false (stripL s3)
  if !t.isEmpty && !endsSemi (rstripL t) then rstripL t ++ [';'] else t

/-- `clean_sql_query` from `src/utils/helpers.py`. -/
def clean_sql_query (s : String) : String :=
  String.mk (cleanList s.data)

/-- Python `str.upper()` on the character-list model. -/
def upperL (l : List Char) : List Char :=
  l.map Char.toUpper

/-- The keyword list of `validate_sql_syntax`. -/
def sqlKeywords : List String :=
  ["SELECT", "INSERT", "UPDATE", "DELETE", "CREATE", "DROP", "ALTER"]

/-- `any(cleaned_sql.startswith(keyword) for keyword in sql_keywords)`. -/
def startsWithAnyKeyword (l : List Char) : Bool :=
  sqlKeywords.any (fun k => startsWithStr k.data l)

/-- `validate_sql_syntax` from `src/utils/helpers.py`: blank input is
invalid; otherwise the cleaned, upper-cased, stripped text must start with
a SQL keyword and have matching parenthesis counts. -/
def validate_sql_syntax (s : String) : Bool :=
  if s.data.isEmpty || (stripL s.data).isEmpty then false
  else
    let cleaned := stripL (upperL (cleanList s.data))
    startsWithAnyKeyword cleaned && (cleaned.count '(' == cleaned.count ')')

/-!  The prompt builder, from `src/llm/prompt_builder.py`. -/

/-- Python truthiness of an optional list (`if schemas:`): absent and empty
both count as false. -/
def listTruthy : Option (List α) → Bool
  | none => false
  | some l => !l.isEmpty

/-- The numbered few-shot block: `enumerate(examples, 1)` rendered as the
source formats each example.  An example is a (natural_language, sql) pair. -/
def renderExampleList : Nat → List (String × String) → List String
  | _, [] => []
  | i, e :: rest =>
    ("\nExample " ++ toString i ++ ":\nNatural Language: " ++ e.1 ++ "\nSQL: " ++ e.2)
      :: renderExampleList (i + 1) rest

/-- `PromptBuilder.build_sql_generation_prompt`: the ordered prompt parts
joined by `"".join(prompt_parts)`. -/
def build_sql_generation_prompt (natural_language_input database_type : String)
    (schemas : Option (List String)) (examples : Option (List (String × String))) : String :=
  let base := "You are an AI assistant that translates human-readable requests into "
      ++ asciiUpper database_type ++ " SQL queries."
  let schemaParts := if listTruthy schemas then
      "\nGiven the following database schema:" :: (schemas.getD []).map (fun sc => "\n" ++ sc)
    else []
  let exampleParts := if listTruthy examples then
      "\nHere are some examples of natural language to SQL translations:"
        :: renderExampleList 1 (examples.getD [])
    else []
  let request := "\nTranslate this request: \"" ++ natural_language_input ++ "\""
  let closing := "\nRespond ONLY with the SQL query. Do not include any explanations, markdown formatting, or additional text. The response should be a valid "
      ++ asciiUpper database_type ++ " SQL statement that can be executed directly."
  String.join ([base] ++ schemaParts ++ exampleParts ++ [request, closing])

/-- The SQL generation prompt as the spec describes it when both optional
blocks are omitted: the role instruction naming the uppercased dialect, the
quoted user request, and the trailing bare-SQL instruction, in this order
and nothing else.  Stated from the spec's words, independently of the
builder, for comparison with it. -/
def sqlPromptNoSections (natural_language_input database_type : String) : String :=
  String.join
    [("You are an AI assistant that translates human-readable requests into "
        ++ asciiUpper database_type ++ " SQL queries."),
     ("\nTranslate this request: \"" ++ natural_language_input ++ "\""),
     ("\nRespond ONLY with the SQL query. Do not include any explanations, markdown formatting, or additional text. The response should be a valid "
        ++ asciiUpper database_type ++ " SQL statement that can be executed directly.")]

/-!  The gRPC service, from `src/grpc_server.py`. -/

/-- The protobuf error-code enumeration. -/
inductive ErrorCode
  | INVALID_ARGUMENT
  | UNSUPPORTED_DATABASE
  | TRANSLATION_FAILED
  | INTERNAL_ERROR
deriving DecidableEq

/-- `ContentSuccessResponse`.  The confidence score is a rational: the code
only ever passes a connector-supplied number through or defaults it. -/
structure ContentSuccessResponse where
  content : String
  explanation : String
  confidenceScore : ℚ
  metadata : List (String × String)
deriving DecidableEq

/-- `GenerateContentResponse`: exactly one of success and error. -/
inductive GenerateContentResponse
  | success (r : ContentSuccessResponse)
  | error (code : ErrorCode) (message : String)
deriving DecidableEq

/-- The error code of a response, if it is the error variant. -/
def errorCodeOf : GenerateContentResponse → Option ErrorCode
  | GenerateContentResponse.success _ => none
  | GenerateContentResponse.error code _ => some code

/-- `GenerateContentRequest`: prompt, content type and the two string maps. -/
structure GenerateContentRequest where
  prompt : String
  contentType : String
  parameters : List (String × String)
  context : List (String × String)

/-- A value of the connector's response dictionary: the `content` entry is a
string, a `confidence` entry is a number. -/
inductive PyVal
  | str (s : String)
  | num (q : ℚ)
deriving DecidableEq

/-- The connector's response dictionary. -/
abbrev LLMDict := List (String × PyVal)

/-- What a call to the connector's `generate_content` does: raise an
exception carrying `str(e)`, or return a dictionary (or `None`). -/
inductive ConnResult
  | exn (msg : String)
  | ret (d : Option LLMDict)

/-- A role-tagged conversation message. -/
structure Message where
  role : String
  content : String

/-- The LLM connector as the service sees it: messages in, result out. -/
abbrev Connector := List Message → ConnResult

/-- Dictionary lookup (`d[k]` / `k in d`). -/
def dictGet (k : String) (d : LLMDict) : Option PyVal :=
  (d.find? (fun p => p.1 == k)).map (fun p => p.2)

/-- The guard `not response or 'content' not in response` of every
generation path. -/
def failsContentCheck : Option LLMDict → Bool
  | none => true
  | some d => d.isEmpty || (dictGet "content" d).isNone

/-- Python `str.strip()`. -/
def pyStr_strip (s : String) : String :=
  String.mk (stripL s.data)

/-- `response['content'].strip()`: a non-string content value would raise
`AttributeError` in Python. -/
def pyVal_strip : PyVal → Except String String
  | PyVal.str s => Except.ok (pyStr_strip s)
  | PyVal.num _ => Except.error "'Float' object has no attribute 'strip'"

/-- `response.get('confidence', 0.8)` fed into the float `confidenceScore`
field; a non-numeric value would fail the protobuf assignment. -/
def getConfidence (d : LLMDict) : Except String ℚ :=
  match dictGet "confidence" d with
  | none => Except.ok (4 / 5)
  | some (PyVal.num q) => Except.ok q
  | some (PyVal.str _) => Except.error "confidence is not a number"

/-- Map lookup with a default (`request.parameters.get(key, default)`). -/
def lookupDefault (m : List (String × String)) (k dft : String) : String :=
  match m.find? (fun p => p.1 == k) with
  | some p => p.2
  | none => dft

/-- `request.parameters.get('database_type', 'mysql')`. -/
def requestDbType (req : GenerateContentRequest) : String :=
  lookupDefault req.parameters "database_type" "mysql"

/-- `request.context.get('schemas', '').split(',')` when the schemas entry
is truthy, else `None`. -/
def requestSchemas (req : GenerateContentRequest) : Option (List String) :=
  let s := lookupDefault req.context "schemas" ""
  if s = "" then none else some (s.splitOn ",")

/-- The two-message conversation of `_generate_sql_content`. -/
def sqlMessages (req : GenerateContentRequest) : List Message :=
  [{ role := "system",
     content := "You are an AI assistant that translates natural language to SQL queries." },
   { role := "user",
     content := build_sql_generation_prompt req.prompt (requestDbType req)
        (requestSchemas req) none }]

/-- `", ".join(f"{k}: {v}" for k, v in request.context.items())`. -/
def contextRender (ctx : List (String × String)) : String :=
  String.intercalate ", " (ctx.map (fun kv => kv.1 ++ ": " ++ kv.2))

/-- The inline prompt of the non-SQL paths: a lead-in followed by the raw
prompt, plus a context block when the context map is truthy. -/
def inlinePrompt (lead : String) (req : GenerateContentRequest) : String :=
  let p := lead ++ req.prompt
  if req.context.isEmpty then p else p ++ "\nContext: " ++ contextRender req.context

/-- The two-message conversation of `_generate_testcase_content`. -/
def testcaseMessages (req : GenerateContentRequest) : List Message :=
  [{ role := "system",
     content := "You are an AI assistant that generates comprehensive test cases." },
   { role := "user", content := inlinePrompt "Generate test cases for: " req }]

/-- The two-message conversation of `_generate_mock_content`. -/
def mockMessages (req : GenerateContentRequest) : List Message :=
  [{ role := "system",
     content := "You are an AI assistant that generates mock services and API responses." },
   { role := "user", content := inlinePrompt "Generate mock service for: " req }]

/-- The two-message conversation of `_generate_generic_content`. -/
def genericMessages (req : GenerateContentRequest) : List Message :=
  [{ role := "system",
     content := "You are an AI assistant that generates " ++ req.contentType ++ " content." },
   { role := "user",
     content := inlinePrompt ("Generate " ++ req.contentType ++ " content for: ") req }]

/-- Call the connector; an exception propagates into the `Except` flow. -/
def connCall (conn : Connector) (messages : List Message) : Except String (Option LLMDict) :=
  match conn messages with
  | ConnResult.exn m => Except.error m
  | ConnResult.ret d => Except.ok d

/-- The call `self.dialect_manager.adapt_sql_for_dialect(sql_query, db_type)`
at `src/grpc_server.py:136`.  `DialectManager` defines no method of that
name (it defines `adjust_sql_for_dialect`), so in Python this attribute
access raises `AttributeError` with exactly this message; the surrounding
`except` turns it into an INTERNAL_ERROR response. -/
def adapt_sql_for_dialect_call (_sql _db_type : String) : Except String String :=
  Except.error "'DialectManager' object has no attribute 'adapt_sql_for_dialect'"

/-- The `try` body of `_generate_sql_content`: call the connector, check
the content guard, strip the content, call the (missing) dialect method and
package a success.  Each exception-carrying step is sequenced by an
explicit match on its `Except` value. -/
def sqlTryBody (conn : Connector) (req : GenerateContentRequest) :
    Except String GenerateContentResponse :=
  let db_type := requestDbType req
  match connCall conn (sqlMessages req) with
  | Except.error m => Except.error m
  | Except.ok response =>
    if failsContentCheck response then
      Except.ok (GenerateContentResponse.error ErrorCode.TRANSLATION_FAILED
        "Failed to generate SQL from LLM")
    else
      let d := response.getD []
      let v := (dictGet "content" d).getD (PyVal.str "")
      match pyVal_strip v with
      | Except.error m => Except.error m
      | Except.ok sql_query =>
        match adapt_sql_for_dialect_call sql_query db_type with
        | Except.error m => Except.error m
        | Except.ok sql_query2 =>
          match getConfidence d with
          | Except.error m => Except.error m
          | Except.ok conf =>
            Except.ok (GenerateContentResponse.success
              { content := sql_query2,
                explanation := "Generated " ++ db_type
                  ++ " SQL query from natural language input",
                confidenceScore := conf,
                metadata := [("content_type", "sql"), ("database_type", db_type)] })

/-- The shared shape of the `try` bodies of `_generate_testcase_content`,
`_generate_mock_content` and `_generate_generic_content`: call the
connector, check the content guard, strip the content and package a
success; no dialect step. -/
def simpleTryBody (conn : Connector) (messages : List Message)
    (failMsg explanation : String) (metadata : List (String × String)) :
    Except String GenerateContentResponse :=
  match connCall conn messages with
  | Except.error m => Except.error m
  | Except.ok response =>
    if failsContentCheck response then
      Except.ok (GenerateContentResponse.error ErrorCode.TRANSLATION_FAILED failMsg)
    else
      let d := response.getD []
      let v := (dictGet "content" d).getD (PyVal.str "")
      match pyVal_strip v with
      | Except.error m => Except.error m
      | Except.ok content =>
        match getConfidence d with
        | Except.error m => Except.error m
        | Except.ok conf =>
          Except.ok (GenerateContentResponse.success
            { content := content, explanation := explanation,
              confidenceScore := conf, metadata := metadata })

/-- The `except Exception` handler every generation method ends with. -/
def runHandler : Except String GenerateContentResponse → GenerateContentResponse
  | Except.ok r => r
  | Except.error m => GenerateContentResponse.error ErrorCode.INTERNAL_ERROR
      ("Internal error: " ++ m)

/-- `AIExtensionService._generate_sql_content`. -/
def generate_sql_content (conn : Connector) (req : GenerateContentRequest) :
    GenerateContentResponse :=
  runHandler (sqlTryBody conn req)

/-- `AIExtensionService._generate_testcase_content`. -/
def generate_testcase_content (conn : Connector) (req : GenerateContentRequest) :
    GenerateContentResponse :=
  runHandler (simpleTryBody conn (testcaseMessages req)
    "Failed to generate test cases from LLM"
    "Generated test cases based on the provided requirements"
    [("content_type", "testcase")])

/-- `AIExtensionService._generate_mock_content`. -/
def generate_mock_content (conn : Connector) (req : GenerateContentRequest) :
    GenerateContentResponse :=
  runHandler (simpleTryBody conn (mockMessages req)
    "Failed to generate mock service from LLM"
    "Generated mock service based on the provided requirements"
    [("content_type", "mock")])

/-- `AIExtensionService._generate_generic_content`. -/
def generate_generic_content (conn : Connector) (req : GenerateContentRequest) :
    GenerateContentResponse :=
  runHandler (simpleTryBody conn (genericMessages req)
    ("Failed to generate " ++ req.contentType ++ " content from LLM")
    ("Generated " ++ req.contentType ++ " content based on the provided requirements")
    [("content_type", req.contentType)])

/-- `AIExtensionService.GenerateContent`: validate the trimmed prompt and
content type, then dispatch on the lower-cased content type.  Every inner
path already catches its own exceptions, so the outer handler of the source
adds nothing in the model. -/
def GenerateContent (conn : Connector) (req : GenerateContentRequest) :
    GenerateContentResponse :=
  if pyStr_strip req.prompt = "" then
    GenerateContentResponse.error ErrorCode.INVALID_ARGUMENT "Prompt cannot be empty"
  else if pyStr_strip req.contentType = "" then
    GenerateContentResponse.error ErrorCode.INVALID_ARGUMENT "Content type cannot be empty"
  else if asciiLower req.contentType = "sql" then generate_sql_content conn req
  else if asciiLower req.contentType = "testcase" then generate_testcase_content conn req
  else if asciiLower req.contentType = "mock" then generate_mock_content conn req
  else generate_generic_content conn req

/-- Whether a connector call came back non-raising but failing the content
guard (`not response or 'content' not in response`). -/
def connNoContent : ConnResult → Bool
  | ConnResult.exn _ => false
  | ConnResult.ret d => failsContentCheck d

/-!  Theorems. -/

/-- C1 (code_bug evidence): for the request
`{prompt: "Show me all users", contentType: "sql",
parameters: {database_type: "mysql"}}` and a stubbed connector returning
`{content: "SELECT * FROM users;"}`, `GenerateContent` does not return the
Success variant the spec describes: `_generate_sql_content` calls the
nonexistent method `adapt_sql_for_dialect` on the dialect manager, so the
request ends as `Error(INTERNAL_ERROR)` carrying the `AttributeError`
message. -/
theorem c1_sql_request_hits_missing_method :
    GenerateContent
      (fun _ => ConnResult.ret (some [("content", PyVal.str "SELECT * FROM users;")]))
      { prompt := "Show me all users", contentType := "sql",
        parameters := [("database_type", "mysql")], context := [] }
      = GenerateContentResponse.error ErrorCode.INTERNAL_ERROR
          "Internal error: 'DialectManager' object has no attribute 'adapt_sql_for_dialect'" := by
  decide

/-- C2 (counterexample): the mssql adaptation does not remove only the
first `LIMIT n` occurrence.  On an input with two `LIMIT` clauses the
second one is removed as well — the output of the adaptation no longer
contains `LIMIT 5`, although the claim says only `LIMIT 3` is removed. -/
theorem c2_mssql_removes_second_limit_too :
    adjust_sql_for_dialect "SELECT * FROM (SELECT id FROM t LIMIT 3) LIMIT 5" "mssql"
      = "SELECT TOP 3 * FROM (SELECT id FROM t ) "
    ∧ strContains
        (adjust_sql_for_dialect "SELECT * FROM (SELECT id FROM t LIMIT 3) LIMIT 5" "mssql")
        "LIMIT 5" = false := by
  decide

/-- C2 (amended): the mssql adaptation removes every matched `LIMIT n`
occurrence (the substitution has no count), inserting `TOP n` with the `n`
of the first match right after the first `SELECT` keyword only; on the
spec's example `adapt("SELECT * FROM t LIMIT 5", "mssql")` the result
contains `SELECT TOP 5` and no longer contains the token `LIMIT`, and on a
two-LIMIT input both occurrences are removed. -/
theorem c2_mssql_limit_adaptation_amended :
    strContains (adjust_sql_for_dialect "SELECT * FROM t LIMIT 5" "mssql")
      "SELECT TOP 5" = true
    ∧ strContains (adjust_sql_for_dialect "SELECT * FROM t LIMIT 5" "mssql")
        "LIMIT" = false
    ∧ adjust_sql_for_dialect "SELECT * FROM (SELECT id FROM t LIMIT 3) LIMIT 5" "mssql"
        = "SELECT TOP 3 * FROM (SELECT id FROM t ) " := by
  decide

/-- C5: for every SQL string and every database identifier whose lowered
form is not one of the five supported names, `adjust_sql_for_dialect`
returns the SQL unchanged (the `ValueError` of the enumeration lookup is
caught and the original SQL returned). -/
theorem c5_adjust_unknown_dialect_identity (s d : String)
    (h : asciiLower d ∉ ["mysql", "postgresql", "sqlite", "mssql", "oracle"]) :
    adjust_sql_for_dialect s d = s := by
  simp only [List.mem_cons, List.not_mem_nil, or_false, not_or] at h
  obtain ⟨h1, h2, h3, h4, h5⟩ := h
  unfold adjust_sql_for_dialect parseDatabaseType
  rw [if_neg h1, if_neg h2, if_neg h3, if_neg h4, if_neg h5]

/-- C5 witness: the identity at the concrete unknown identifier of the
repository's own test. -/
theorem c5_adjust_unknown_dialect_identity_witness :
    adjust_sql_for_dialect "SELECT * FROM users;" "unknown_db" = "SELECT * FROM users;" :=
  c5_adjust_unknown_dialect_identity "SELECT * FROM users;" "unknown_db" (by decide)

/-- C6 (counterexample): adaptation is not idempotent for all syntactic
classes outside the PostgreSQL boolean heuristic.  The MySQL double-quote
pairing rewrite re-pairs leftover quotes around already-rewritten text:
applying the mysql adaptation twice to `""a" x "` differs from applying it
once. -/
theorem c6_mysql_adaptation_not_idempotent :
    adjust_sql_for_dialect (adjust_sql_for_dialect "\"\"a\" x \"" "mysql") "mysql"
      ≠ adjust_sql_for_dialect "\"\"a\" x \"" "mysql" := by
  decide

/-- C6 (amended): idempotence of `adapt(adapt(s, d), d) = adapt(s, d)`
holds for the sqlite rule set, whose rules are the identity; it does not
hold for every non-PostgreSQL syntactic class (the MySQL quote pairing is a
counterexample). -/
theorem c6_sqlite_adaptation_idempotent (s : String) :
    adjust_sql_for_dialect (adjust_sql_for_dialect s "sqlite") "sqlite"
      = adjust_sql_for_dialect s "sqlite" := rfl

/-- C7: the mysql adaptation rewrites double-quoted identifiers to
backticks and boolean literals TRUE/FALSE (case-insensitively) to 1/0: on
the spec's example the result keeps `col` in backticks and no longer
contains the token TRUE, and a lower-case `false` is rewritten to 0 as
well. -/
theorem c7_mysql_quote_and_boolean :
    adjust_sql_for_dialect "SELECT \"col\" FROM t WHERE flag = TRUE;" "mysql"
      = "SELECT `col` FROM t WHERE flag = 1;"
    ∧ strContains (adjust_sql_for_dialect "SELECT \"col\" FROM t WHERE flag = TRUE;" "mysql")
        "`col`" = true
    ∧ strContains (adjust_sql_for_dialect "SELECT \"col\" FROM t WHERE flag = TRUE;" "mysql")
        "TRUE" = false
    ∧ adjust_sql_for_dialect "SELECT * FROM t WHERE a = false;" "mysql"
        = "SELECT * FROM t WHERE a = 0;" := by
  decide

/-- C8: `build_sql_generation_prompt("Show all users", "mysql")` contains
the uppercased dialect name, the literal input text and the fixed bare-SQL
instruction; and for every input, when schemas and examples are omitted the
prompt is exactly the three fixed parts with no schema or examples section
(compared against `sqlPromptNoSections`, stated from the spec's words).
The builder is a total function, so it never fails. -/
theorem c8_build_sql_prompt_contract :
    (strContains (build_sql_generation_prompt "Show all users" "mysql" none none)
        "MYSQL" = true
      ∧ strContains (build_sql_generation_prompt "Show all users" "mysql" none none)
          "Show all users" = true
      ∧ strContains (build_sql_generation_prompt "Show all users" "mysql" none none)
          "Respond ONLY with the SQL query" = true)
    ∧ ∀ (nli dbt : String),
        build_sql_generation_prompt nli dbt none none = sqlPromptNoSections nli dbt :=
  ⟨by decide, fun _ _ => rfl⟩

/-- C4: a request whose prompt or content type trims to empty is answered
with `Error(INVALID_ARGUMENT)` regardless of the content type, and the
response does not depend on the connector — the connector is never
invoked. -/
theorem c4_empty_validation_invalid_argument (req : GenerateContentRequest)
    (conn conn2 : Connector)
    (h : pyStr_strip req.prompt = "" ∨ pyStr_strip req.contentType = "") :
    errorCodeOf (GenerateContent conn req) = some ErrorCode.INVALID_ARGUMENT
    ∧ GenerateContent conn req = GenerateContent conn2 req := by
  by_cases hp : pyStr_strip req.prompt = ""
  · simp [GenerateContent, hp, errorCodeOf]
  · rcases h with h | h
    · exact absurd h hp
    · simp [GenerateContent, hp, h, errorCodeOf]

/-- C4 witness: a whitespace-only prompt at two different concrete
connectors. -/
theorem c4_empty_validation_invalid_argument_witness :
    errorCodeOf (GenerateContent (fun _ => ConnResult.exn "boom")
        { prompt := "   ", contentType := "sql", parameters := [], context := [] })
      = some ErrorCode.INVALID_ARGUMENT
    ∧ GenerateContent (fun _ => ConnResult.exn "boom")
        { prompt := "   ", contentType := "sql", parameters := [], context := [] }
      = GenerateContent (fun _ => ConnResult.ret none)
        { prompt := "   ", contentType := "sql", parameters := [], context := [] } :=
  c4_empty_validation_invalid_argument _ _ _ (Or.inl (by decide))

/-- A raising connector turns the SQL path into INTERNAL_ERROR. -/
theorem sql_path_exn (conn : Connector) (req : GenerateContentRequest) (m : String)
    (h : conn (sqlMessages req) = ConnResult.exn m) :
    generate_sql_content conn req
      = GenerateContentResponse.error ErrorCode.INTERNAL_ERROR ("Internal error: " ++ m) := by
  unfold generate_sql_content sqlTryBody connCall
  rw [h]
  rfl

/-- A raising connector turns each `simpleTryBody` path into INTERNAL_ERROR. -/
theorem simple_path_exn (conn : Connector) (messages : List Message)
    (failMsg explanation : String) (metadata : List (String × String)) (m : String)
    (h : conn messages = ConnResult.exn m) :
    runHandler (simpleTryBody conn messages failMsg explanation metadata)
      = GenerateContentResponse.error ErrorCode.INTERNAL_ERROR ("Internal error: " ++ m) := by
  unfold simpleTryBody connCall
  rw [h]
  rfl

/-- A connector answer failing the content guard turns the SQL path into
TRANSLATION_FAILED. -/
theorem sql_path_nocontent (conn : Connector) (req : GenerateContentRequest)
    (h : connNoContent (conn (sqlMessages req)) = true) :
    errorCodeOf (generate_sql_content conn req) = some ErrorCode.TRANSLATION_FAILED := by
  unfold generate_sql_content sqlTryBody connCall
  cases hc : conn (sqlMessages req) with
  | exn m => rw [hc] at h; simp [connNoContent] at h
  | ret d =>
    have hd : failsContentCheck d = true := by rw [hc] at h; simpa [connNoContent] using h
    simp [hd, runHandler, errorCodeOf]

/-- A connector answer failing the content guard turns each
`simpleTryBody` path into TRANSLATION_FAILED. -/
theorem simple_path_nocontent (conn : Connector) (messages : List Message)
    (failMsg explanation : String) (metadata : List (String × String))
    (h : connNoContent (conn messages) = true) :
    errorCodeOf (runHandler (simpleTryBody conn messages failMsg explanation metadata))
      = some ErrorCode.TRANSLATION_FAILED := by
  unfold simpleTryBody connCall
  cases hc : conn messages with
  | exn m => rw [hc] at h; simp [connNoContent] at h
  | ret d =>
    have hd : failsContentCheck d = true := by rw [hc] at h; simpa [connNoContent] using h
    simp [hd, runHandler, errorCodeOf]

/-- C3 (amended): for every request that passes validation, a connector
whose `generate_content` raises yields `Error(INTERNAL_ERROR)`, and a
connector returning a falsy response or one missing the `content` key
yields `Error(TRANSLATION_FAILED)`.  (A present-but-empty content string is
not caught by the guard; see the counterexample.) -/
theorem c3_connector_failure_amended (req : GenerateContentRequest) (conn : Connector)
    (hp : pyStr_strip req.prompt ≠ "") (hc : pyStr_strip req.contentType ≠ "") :
    (∀ m : String, (∀ msgs, conn msgs = ConnResult.exn m) →
        GenerateContent conn req
          = GenerateContentResponse.error ErrorCode.INTERNAL_ERROR ("Internal error: " ++ m))
    ∧ ((∀ msgs, connNoContent (conn msgs) = true) →
        errorCodeOf (GenerateContent conn req) = some ErrorCode.TRANSLATION_FAILED) := by
  constructor
  · intro m hm
    unfold GenerateContent
    rw [if_neg hp, if_neg hc]
    by_cases h1 : asciiLower req.contentType = "sql"
    · rw [if_pos h1]; exact sql_path_exn conn req m (hm _)
    · rw [if_neg h1]
      by_cases h2 : asciiLower req.contentType = "testcase"
      · rw [if_pos h2]; exact simple_path_exn conn _ _ _ _ m (hm _)
      · rw [if_neg h2]
        by_cases h3 : asciiLower req.contentType = "mock"
        · rw [if_pos h3]; exact simple_path_exn conn _ _ _ _ m (hm _)
        · rw [if_neg h3]; exact simple_path_exn conn _ _ _ _ m (hm _)
  · intro hm
    unfold GenerateContent
    rw [if_neg hp, if_neg hc]
    by_cases h1 : asciiLower req.contentType = "sql"
    · rw [if_pos h1]; exact sql_path_nocontent conn req (hm _)
    · rw [if_neg h1]
      by_cases h2 : asciiLower req.contentType = "testcase"
      · rw [if_pos h2]; exact simple_path_nocontent conn _ _ _ _ (hm _)
      · rw [if_neg h2]
        by_cases h3 : asciiLower req.contentType = "mock"
        · rw [if_pos h3]; exact simple_path_nocontent conn _ _ _ _ (hm _)
        · rw [if_neg h3]; exact simple_path_nocontent conn _ _ _ _ (hm _)

/-- C3 witness: the amended theorem applied at a concrete valid request,
once with an always-raising connector and once with a connector returning
`None`. -/
theorem c3_connector_failure_amended_witness :
    GenerateContent (fun _ => ConnResult.exn "boom")
        { prompt := "Show me all users", contentType := "sql",
          parameters := [("database_type", "mysql")], context := [] }
      = GenerateContentResponse.error ErrorCode.INTERNAL_ERROR "Internal error: boom"
    ∧ errorCodeOf (GenerateContent (fun _ => ConnResult.ret none)
        { prompt := "Show me all users", contentType := "sql",
          parameters := [("database_type", "mysql")], context := [] })
      = some ErrorCode.TRANSLATION_FAILED :=
  ⟨(c3_connector_failure_amended _ (fun _ => ConnResult.exn "boom")
      (by decide) (by decide)).1 "boom" (fun _ => rfl),
   (c3_connector_failure_amended _ (fun _ => ConnResult.ret none)
      (by decide) (by decide)).2 (fun _ => rfl)⟩

/-- C3 (counterexample): a connector returning a response whose `content`
field is present but empty does not yield TRANSLATION_FAILED — the guard
`not response or 'content' not in response` lets it through, and on the SQL
path the request ends as INTERNAL_ERROR (the missing dialect method). -/
theorem c3_empty_content_not_translation_failed :
    errorCodeOf (GenerateContent
        (fun _ => ConnResult.ret (some [("content", PyVal.str "")]))
        { prompt := "Show me all users", contentType := "sql",
          parameters := [("database_type", "mysql")], context := [] })
      = some ErrorCode.INTERNAL_ERROR
    ∧ errorCodeOf (GenerateContent
        (fun _ => ConnResult.ret (some [("content", PyVal.str "")]))
        { prompt := "Show me all users", contentType := "sql",
          parameters := [("database_type", "mysql")], context := [] })
      ≠ some ErrorCode.TRANSLATION_FAILED := by
  decide

theorem lastChar_cons_ne (a : Char) (t : List Char) (h : t ≠ []) :
    lastChar (a :: t) = lastChar t := by
  cases t with
  | nil => exact absurd rfl h
  | cons b t2 => rfl

theorem lastChar_append_single (l : List Char) (c : Char) :
    lastChar (l ++ [c]) = some c := by
  induction l with
  | nil => rfl
  | cons a t ih =>
    cases t with
    | nil => rfl
    | cons b t2 => exact ih

theorem exists_lastChar (l : List Char) (h : l ≠ []) : ∃ c, lastChar l = some c := by
  induction l with
  | nil => exact absurd rfl h
  | cons a t ih =>
    cases t with
    | nil => exact ⟨a, rfl⟩
    | cons b t2 => exact ih (by simp)

theorem lastChar_mem (l : List Char) (c : Char) (h : lastChar l = some c) : c ∈ l := by
  induction l with
  | nil => simp [lastChar] at h
  | cons a t ih =>
    cases t with
    | nil =>
      have : a = c := by simpa [lastChar] using h
      simp [this]
    | cons b t2 => exact List.mem_cons_of_mem a (ih h)

theorem dropWhile_head_not (p : Char → Bool) (l : List Char) (x : Char)
    (h : (l.dropWhile p).head? = some x) : p x = false := by
  induction l with
  | nil => simp [List.dropWhile] at h
  | cons a t ih =>
    rw [List.dropWhile_cons] at h
    by_cases hp : p a = true
    · rw [if_pos hp] at h; exact ih h
    · rw [if_neg hp] at h
      have : a = x := by simpa using h
      subst this
      exact Bool.not_eq_true _ ▸ Bool.eq_false_iff.mpr hp

theorem rstripL_eq_self (l : List Char)
    (h : ∀ c, lastChar l = some c → isPySpace c = false) : rstripL l = l := by
  unfold rstripL
  cases hr : l.reverse with
  | nil =>
    rw [List.reverse_eq_nil_iff.mp hr]
    rfl
  | cons c r =>
    have hcl : lastChar l = some c := by
      have hl : l = (c :: r).reverse := by rw [← hr, List.reverse_reverse]
      rw [hl, List.reverse_cons]
      exact lastChar_append_single r.reverse c
    have hs := h c hcl
    rw [List.dropWhile_cons, if_neg (by simp [hs]), ← hr, List.reverse_reverse]

theorem stripL_noTrail (l : List Char) (c : Char)
    (h : lastChar (stripL l) = some c) : isPySpace c = false := by
  unfold stripL rstripL at h
  cases hd : (l.dropWhile isPySpace).reverse.dropWhile isPySpace with
  | nil => rw [hd] at h; simp [lastChar] at h
  | cons x r =>
    rw [hd, List.reverse_cons, lastChar_append_single] at h
    have hx : x = c := by simpa using h
    subst hx
    exact dropWhile_head_not isPySpace _ x (by rw [hd]; rfl)

theorem collapseGo_eq_nil (b : Bool) (l : List Char) (h : collapseGo b l = []) :
    ∀ c ∈ l, isPySpace c = true := by
  induction l generalizing b with
  | nil => intro c hc; simp at hc
  | cons a t ih =>
    intro c hc
    by_cases ha : isPySpace a = true
    · rcases List.mem_cons.mp hc with rfl | hct
      · exact ha
      · cases b with
        | true => exact ih true (by simpa [collapseGo, ha] using h) c hct
        | false => simp [collapseGo, ha] at h
    · simp [collapseGo, ha] at h

theorem collapseGo_noTrail (l : List Char) :
    ∀ b, (∀ c, lastChar l = some c → isPySpace c = false) →
      ∀ c, lastChar (collapseGo b l) = some c → isPySpace c = false := by
  induction l with
  | nil => intro b h c hc; simp [collapseGo, lastChar] at hc
  | cons a t ih =>
    intro b h c hc
    by_cases ha : isPySpace a = true
    · have ht : t ≠ [] := by
        intro he; subst he
        have := h a rfl
        rw [ha] at this
        exact Bool.true_eq_false.mp this
      have h' : ∀ c, lastChar t = some c → isPySpace c = false := by
        intro d hd; exact h d (by rw [lastChar_cons_ne a t ht]; exact hd)
      have hX : collapseGo true t ≠ [] := by
        intro he
        obtain ⟨d, hd⟩ := exists_lastChar t ht
        have hdns := h' d hd
        have := collapseGo_eq_nil true t he d (lastChar_mem t d hd)
        rw [this] at hdns
        exact Bool.true_eq_false.mp hdns
      cases b with
      | true =>
        have hc2 : lastChar (collapseGo true t) = some c := by
          simpa [collapseGo, ha] using hc
        exact ih true h' c hc2
      | false =>
        have hc2 : lastChar (' ' :: collapseGo true t) = some c := by
          simpa [collapseGo, ha] using hc
        rw [lastChar_cons_ne _ _ hX] at hc2
        exact ih true h' c hc2
    · by_cases ht : t = []
      · subst ht
        have : a = c := by simpa [collapseGo, ha, lastChar] using hc
        subst this
        exact Bool.eq_false_iff.mpr ha
      · have h' : ∀ c, lastChar t = some c → isPySpace c = false := by
          intro d hd; exact h d (by rw [lastChar_cons_ne a t ht]; exact hd)
        have hX : collapseGo false t ≠ [] := by
          intro he
          obtain ⟨d, hd⟩ := exists_lastChar t ht
          have hdns := h' d hd
          have := collapseGo_eq_nil false t he d (lastChar_mem t d hd)
          rw [this] at hdns
          exact Bool.true_eq_false.mp hdns
        have hc2 : lastChar (a :: collapseGo false t) = some c := by
          simpa [collapseGo, ha] using hc
        rw [lastChar_cons_ne _ _ hX] at hc2
        exact ih false h' c hc2

theorem endsSemi_iff_lastChar (l : List Char) :
    endsSemi l = true ↔ lastChar l = some ';' := by
  induction l with
  | nil => simp [endsSemi, lastChar]
  | cons a t ih =>
    cases t with
    | nil => simp [endsSemi, lastChar]
    | cons b t2 => exact ih

theorem endsSemi_append_semi (l : List Char) : endsSemi (l ++ [';']) = true := by
  rw [endsSemi_iff_lastChar]
  exact lastChar_append_single l ';'

theorem cleanTail_shape (t : List Char)
    (hnt : ∀ c, lastChar t = some c → isPySpace c = false) :
    (if !t.isEmpty && !endsSemi (rstripL t) then rstripL t ++ [';'] else t) = []
    ∨ endsSemi (if !t.isEmpty && !endsSemi (rstripL t) then rstripL t ++ [';'] else t) = true := by
  by_cases hcond : (!t.isEmpty && !endsSemi (rstripL t)) = true
  · right
    rw [if_pos hcond]
    exact endsSemi_append_semi _
  · rw [if_neg hcond]
    have h2 : t.isEmpty = true ∨ endsSemi (rstripL t) = true := by
      by_cases he : t.isEmpty = true
      · exact Or.inl he
      · by_cases hs : endsSemi (rstripL t) = true
        · exact Or.inr hs
        · exfalso
          apply hcond
          have he' : t.isEmpty = false := Bool.eq_false_iff.mpr he
          have hs' : endsSemi (rstripL t) = false := Bool.eq_false_iff.mpr hs
          simp [he', hs']
    rcases h2 with h1 | h1
    · exact Or.inl (List.isEmpty_iff.mp h1)
    · right
      rwa [rstripL_eq_self t hnt] at h1

/-- C9: for every input string, `clean_sql_query` returns either the empty
string or a string ending with a semicolon: the final guard appends one when
the whitespace-normalized text is nonempty and lacks it, and the normalized
text never ends in whitespace, so the guard's `rstrip` is the identity. -/
theorem c9_clean_sql_query_empty_or_semicolon (s : String) :
    clean_sql_query s = "" ∨ endsSemi (clean_sql_query s).data = true := by
  have H : cleanList s.data = [] ∨ endsSemi (cleanList s.data) = true := by
    by_cases h0 : s.data.isEmpty = true
    · left; simp [cleanList, h0]
    · unfold cleanList
      rw [if_neg h0]
      exact cleanTail_shape _
        (collapseGo_noTrail _ false (fun d hd => stripL_noTrail _ d hd))
  rcases H with H | H
  · left
    show String.mk (cleanList s.data) = ""
    rw [H]
  · right
    exact H

theorem isPySpace_elim (c : Char) (h : isPySpace c = true) :
    c = ' ' ∨ c = '\t' ∨ c = '\n' ∨ c = '\r' ∨ c = '\x0b' ∨ c = '\x0c' := by
  have h2 := h
  simp only [isPySpace, Bool.or_eq_true, decide_eq_true_eq] at h2
  tauto

theorem space_not_fence_sql (c : Char) (rest : List Char) (h : isPySpace c = true) :
    startsWithCI ("```sql".data) (c :: rest) = false := by
  rcases isPySpace_elim c h with rfl | rfl | rfl | rfl | rfl | rfl <;> rfl

theorem space_not_fence_ci (c : Char) (rest : List Char) (h : isPySpace c = true) :
    startsWithCI ("```".data) (c :: rest) = false := by
  rcases isPySpace_elim c h with rfl | rfl | rfl | rfl | rfl | rfl <;> rfl

theorem space_not_fence_cs (c : Char) (rest : List Char) (h : isPySpace c = true) :
    startsWithStr ("```".data) (c :: rest) = false := by
  rcases isPySpace_elim c h with rfl | rfl | rfl | rfl | rfl | rfl <;> rfl

theorem fenceSqlGo_allspace (n : Nat) (b : Bool) (l : List Char)
    (h : ∀ c ∈ l, isPySpace c = true) : fenceSqlGo n b l = l := by
  induction n generalizing b l with
  | zero => rfl
  | succ n ih =>
    cases l with
    | nil => rfl
    | cons c rest =>
      have hc : isPySpace c = true := h c (List.mem_cons_self _ _)
      have hsw := space_not_fence_sql c rest hc
      simp only [fenceSqlGo, hsw, Bool.and_false, Bool.false_eq_true, if_false,
        List.cons.injEq, true_and]
      exact ih _ rest (fun d hd => h d (List.mem_cons_of_mem _ hd))

theorem fenceGo_allspace (n : Nat) (b : Bool) (l : List Char)
    (h : ∀ c ∈ l, isPySpace c = true) : fenceGo n b l = l := by
  induction n generalizing b l with
  | zero => rfl
  | succ n ih =>
    cases l with
    | nil => rfl
    | cons c rest =>
      have hc : isPySpace c = true := h c (List.mem_cons_self _ _)
      have hsw := space_not_fence_cs c rest hc
      simp only [fenceGo, hsw, Bool.and_false, Bool.false_eq_true, if_false,
        List.cons.injEq, true_and]
      exact ih _ rest (fun d hd => h d (List.mem_cons_of_mem _ hd))

theorem fenceEndGo_allspace (n : Nat) (l : List Char)
    (h : ∀ c ∈ l, isPySpace c = true) : fenceEndGo n l = l := by
  induction n generalizing l with
  | zero => rfl
  | succ n ih =>
    cases l with
    | nil => rfl
    | cons c rest =>
      have hc : isPySpace c = true := h c (List.mem_cons_self _ _)
      have hsw := space_not_fence_cs c rest hc
      simp only [fenceEndGo, hsw, Bool.false_and, Bool.false_eq_true, if_false,
        List.cons.injEq, true_and]
      exact ih rest (fun d hd => h d (List.mem_cons_of_mem _ hd))

theorem stripL_eq_nil_all (l : List Char) (h : stripL l = []) :
    ∀ c ∈ l, isPySpace c = true := by
  unfold stripL rstripL at h
  have h1 : (l.dropWhile isPySpace).reverse.dropWhile isPySpace = [] :=
    List.reverse_eq_nil_iff.mp h
  have h3 : ∀ c ∈ l.dropWhile isPySpace, isPySpace c = true := by
    intro c hc
    exact (List.dropWhile_eq_nil_iff.mp h1) c (List.mem_reverse.mpr hc)
  intro c hc
  have hsplit : c ∈ l.takeWhile isPySpace ++ l.dropWhile isPySpace := by
    rw [List.takeWhile_append_dropWhile]; exact hc
  rcases List.mem_append.mp hsplit with h4 | h4
  · exact List.mem_takeWhile_imp h4
  · exact h3 c h4

theorem cleanList_blank (l : List Char) (h : l.isEmpty = true ∨ stripL l = []) :
    cleanList l = [] := by
  by_cases h0 : l.isEmpty = true
  · simp [cleanList, h0]
  · rcases h with h | h
    · exact absurd h h0
    · have hall := stripL_eq_nil_all l h
      have e1 : fenceSqlGo l.length true l = l := fenceSqlGo_allspace _ _ _ hall
      have e2 : fenceGo l.length true l = l := fenceGo_allspace _ _ _ hall
      have e3 : fenceEndGo l.length l = l := fenceEndGo_allspace _ _ hall
      unfold cleanList
      rw [if_neg h0]
      simp only [e1, e2, e3, h]
      rfl

/-- C10: `validate_sql_syntax` returns true exactly when the cleaned,
upper-cased (and stripped) form of the input starts with one of the seven
SQL keywords and has equally many opening and closing parentheses; blank
input takes the early false branch, on which the characterization also
evaluates to false.  The function is total, so it never raises, and it
performs no grammar parse. -/
theorem c10_validate_sql_syntax_characterization (s : String) :
    validate_sql_syntax s = true ↔
      (startsWithAnyKeyword (stripL (upperL (cleanList s.data))) = true
       ∧ (stripL (upperL (cleanList s.data))).count '('
           = (stripL (upperL (cleanList s.data))).count ')') := by
  unfold validate_sql_syntax
  by_cases h : (s.data.isEmpty || (stripL s.data).isEmpty) = true
  · rw [if_pos h]
    have hnil : cleanList s.data = [] := by
      apply cleanList_blank
      rcases Bool.or_eq_true _ _ ▸ h with h1 | h1
      · exact Or.inl h1
      · exact Or.inr (List.isEmpty_iff.mp h1)
    rw [hnil]
    constructor
    · intro hx; exact absurd hx (by decide)
    · intro hx; exact absurd hx.1 (by decide)
  · rw [if_neg h]
    simp only [Bool.and_eq_true, beq_iff_eq]
